import Mathlib

/-!
# Verification of the sql-validator client pipeline (`src/static/main.js`)

A shallow embedding of the browser-side submit pipeline: fingerprinting,
the duplicate-submission guard, the two-phase validate / AI-analyze fetch
sequence, static result rendering with severity classification, the AI
patch applier, and the download gate.  JavaScript strings are modelled as
Lean `String`; JS `Array.prototype.join` is `String.intercalate`; the JS
builtin `String.prototype.startsWith` is modelled below as a prefix test
on the character sequence, which is its ECMAScript semantics.  The two
`fetch` calls are the only effectful suspension points; each is modelled
by a `FetchOutcome` parameter: either the call (or its `.json()`
decoding) raises, or it yields a decoded value.
-/

namespace SqlValidator

/-- Model of the JS builtin `String.prototype.startsWith`: `p` is a prefix
of the character sequence of `s`. -/
def jsStartsWith (s p : String) : Bool :=
  p.data.isPrefixOf s.data

/-- JS truthiness of a string-valued field that may be absent:
`undefined` and the empty string are falsy. -/
def truthy : Option String → Bool
  | some s => s != ""
  | none => false

/-- The file selected in the form, when present: `file.name`, `file.size`,
`file.lastModified` (byte count and ms timestamp, both non-negative). -/
structure FileMeta where
  name : String
  size : Nat
  lastModified : Nat
deriving DecidableEq, Repr

/-- Live form state read by the submit handler: the four text fields and
the optionally selected file (`fileInput.files[0]`). -/
structure FormSnapshot where
  name : String
  email : String
  team : String
  cr_number : String
  file : Option FileMeta
deriving DecidableEq, Repr

/-- The seven components of the fingerprint array literal
(main.js lines 136–144): the four field values, then
`file ? file.name : ""`, `file ? file.size : ""`,
`file ? file.lastModified : ""` (numbers stringified by `join`). -/
def fingerprintComponents (s : FormSnapshot) : List String :=
  [s.name, s.email, s.team, s.cr_number,
   match s.file with | some f => f.name | none => "",
   match s.file with | some f => toString f.size | none => "",
   match s.file with | some f => toString f.lastModified | none => ""]

/-- `currentFingerprint`: the seven components joined with `"|"`. -/
def computeFingerprint (s : FormSnapshot) : String :=
  String.intercalate "|" (fingerprintComponents s)

/-- Severity class attached to a rendered validation list item. -/
inductive Severity
  | error
  | warning
  | aiMsg
  | success
deriving DecidableEq, Repr

/-- The failure sentinel glyph. -/
def failureGlyph : String := "❌"

/-- The warning sentinel glyph. -/
def warningGlyph : String := "⚠️"

/-- The AI-origin sentinel glyph. -/
def aiGlyph : String := "🧠"

/-- Severity classification of a validation string (main.js lines
217–228): leading failure glyph, else leading warning glyph, else
leading AI glyph, else success. -/
def classify (v : String) : Severity :=
  if jsStartsWith v failureGlyph then .error
  else if jsStartsWith v warningGlyph then .warning
  else if jsStartsWith v aiGlyph then .aiMsg
  else .success

/-- `summary` block of a decoded `/validate` response. -/
structure Summary where
  total : Nat
  passed : Nat
  failed : Nat
deriving DecidableEq, Repr

/-- One element of `results`: a query and its ordered validation strings. -/
structure QueryResult where
  query : String
  validations : List String
deriving DecidableEq, Repr

/-- Decoded `/validate` JSON: optional top-level `error`, the summary,
ordered per-query results, optional `pdf_url`. -/
structure VResponse where
  error : Option String
  summary : Summary
  results : List QueryResult
  pdf_url : Option String
deriving DecidableEq, Repr

/-- The JS check `if (data.error)`. -/
def VResponse.hasError (d : VResponse) : Bool := truthy d.error

/-- One global AI insight of the AI summary. -/
structure AIInsight where
  type : String
  message : String
  severity : String
deriving DecidableEq, Repr

/-- `summary` block of a decoded `/analyze_ai` response. -/
structure AISummary where
  ai_summary : Option String
  ai_insights : Option (List AIInsight)
deriving DecidableEq, Repr

/-- Decoded `/analyze_ai` JSON. -/
structure AIResponse where
  error : Option String
  summary : AISummary
  results : List QueryResult
deriving DecidableEq, Repr

/-- The JS check `if (aiData.error)`. -/
def AIResponse.hasError (d : AIResponse) : Bool := truthy d.error

/-- A rendered `<li>` of a card's validation list: its class and text. -/
structure ListItem where
  cls : Severity
  text : String
deriving DecidableEq, Repr

/-- A rendered `result-card`: its `data-index`, the query text, and the
items of its `validation-list`. -/
structure Card where
  index : Nat
  query : String
  items : List ListItem
deriving DecidableEq, Repr

/-- Render one card (main.js lines 212–231): one list item per
validation string, classified by `classify`. -/
def renderCard (index : Nat) (item : QueryResult) : Card :=
  { index := index
    query := item.query
    items := item.validations.map (fun v => { cls := classify v, text := v }) }

/-- Render the card container: `data.results.forEach((item, index) => …)`. -/
def renderCards (results : List QueryResult) : List Card :=
  results.enum.map (fun p => renderCard p.1 p.2)

/-- A block injected into the `ai-summary-container`. -/
inductive AIBlock
  | execSummary (text : String)
  | insight (type message severity : String)
deriving DecidableEq, Repr

/-- Content of `ai-summary-container` built by the AI continuation
(main.js lines 262–283): the executive summary when `ai_summary` is
truthy, then one block per insight when `ai_insights` is present and
non-empty. -/
def buildAIBlocks (s : AISummary) : List AIBlock :=
  (match s.ai_summary with
   | some t => if t != "" then [AIBlock.execSummary t] else []
   | none => []) ++
  (match s.ai_insights with
   | some l =>
     if l.length > 0 then l.map (fun i => AIBlock.insight i.type i.message i.severity)
     else []
   | none => [])

/-- Placeholder text of the `ai-loading-container` rendered on static
success (main.js lines 194–196). -/
def aiThinkingText : String := "⚡ Static analysis complete. AI is thinking..."

/-- Text of the duplicate-submission warning (main.js line 153). -/
def duplicateWarningText : String :=
  "⚠️ You have already validated this file with these specific details. Please upload a new file or modify the details to validate again."

/-- The report painted into `validationOutput` on static success:
the `ai-loading-container` (visibility and text), the
`ai-summary-container` content, the summary counts, and the cards. -/
structure StaticReport where
  placeholderVisible : Bool
  placeholderContent : String
  aiBlocks : List AIBlock
  summary : Summary
  cards : List Card
deriving DecidableEq, Repr

/-- The static render of a successful `/validate` response (main.js
lines 191–235): visible placeholder with the thinking text, empty AI
summary container, the summary counts, the rendered cards. -/
def renderStatic (data : VResponse) : StaticReport :=
  { placeholderVisible := true
    placeholderContent := aiThinkingText
    aiBlocks := []
    summary := data.summary
    cards := renderCards data.results }

/-- Content of the `validationOutput` element. -/
inductive OutputView
  | initial
  | validating
  | errorMessage (msg : String)
  | staticReport (r : StaticReport)
deriving DecidableEq, Repr

/-- Mutable page state touched by the handlers: the module-level
`lastFingerprint`, the duplicate-warning element, the results container,
the validation output, and the download button
(`none` = hidden with `onclick` cleared, `some url` = shown and bound). -/
structure PageState where
  lastFingerprint : Option String
  warningVisible : Bool
  warningText : String
  resultsVisible : Bool
  output : OutputView
  downloadBinding : Option String
deriving DecidableEq, Repr

/-- Page state on load: `lastFingerprint = null`, nothing shown. -/
def initialPageState : PageState :=
  { lastFingerprint := none
    warningVisible := false
    warningText := ""
    resultsVisible := false
    output := .initial
    downloadBinding := none }

/-- Outcome of a `fetch(...)` + `.json()` pair: the call raises
(offline, timeout, malformed body), or it yields a decoded value. -/
inductive FetchOutcome (α : Type)
  | raise
  | ok (v : α)
deriving DecidableEq, Repr

/-- Result of one run of the submit handler's static phase: the page
state it leaves behind, whether the duplicate guard blocked it, and
which of the two network requests it issued. -/
structure SubmitResult where
  state : PageState
  blocked : Bool
  staticRequested : Bool
  aiRequested : Bool
deriving DecidableEq, Repr

/-- The submit handler (main.js lines 129–326) up to and including the
issuing of the AI request, which it does not await.  Steps in source
order: compute the fingerprint, clear the previous warning, guard
against an unchanged fingerprint (warn and return), disarm the download
button, show the results container and the validating message, await
`fetch("/validate")` + `.json()` (a raise lands in the outer catch),
bail out on a truthy `error` field, commit `lastFingerprint`, paint the
static report, arm the download button when `pdf_url` is truthy, and
fire off the AI request. -/
def submitStatic (st : PageState) (snap : FormSnapshot)
    (outcome : FetchOutcome VResponse) : SubmitResult :=
  let fp := computeFingerprint snap
  let st1 := { st with warningVisible := false, warningText := "" }
  if st1.lastFingerprint == some fp then
    { state := { st1 with warningVisible := true, warningText := duplicateWarningText }
      blocked := true, staticRequested := false, aiRequested := false }
  else
    let st2 := { st1 with downloadBinding := none, resultsVisible := true,
                          output := .validating }
    match outcome with
    | .raise =>
      { state := { st2 with output := .errorMessage "❌ An error occurred." }
        blocked := false, staticRequested := true, aiRequested := false }
    | .ok data =>
      if data.hasError then
        { state := { st2 with output := .errorMessage (data.error.getD "") }
          blocked := false, staticRequested := true, aiRequested := false }
      else
        let st3 := { st2 with lastFingerprint := some fp
                              output := .staticReport (renderStatic data) }
        let st4 := if truthy data.pdf_url
                   then { st3 with downloadBinding := data.pdf_url }
                   else st3
        { state := st4, blocked := false, staticRequested := true, aiRequested := true }

/-- Patch one card with the AI-tagged messages of one AI result: the new
items are appended, each with class `ai-msg` and the message as text
(main.js lines 302–313). -/
def patchCard (c : Card) (aiMessages : List String) : Card :=
  { c with items := c.items ++ aiMessages.map (fun m => { cls := Severity.aiMsg, text := m }) }

/-- One iteration of `aiData.results.forEach((item, index) => …)`
(main.js lines 295–315): filter the validations to those starting with
the AI glyph; when some exist and `cards[index]` exists, append them to
that card's list; otherwise leave the cards alone. -/
def patchStep (cs : List Card) (p : Nat × QueryResult) : List Card :=
  let aiMessages := p.2.validations.filter (fun v => jsStartsWith v aiGlyph)
  if aiMessages.length > 0 then
    match cs[p.1]? with
    | some c => cs.set p.1 (patchCard c aiMessages)
    | none => cs
  else cs

/-- The per-query AI patch loop over the rendered cards. -/
def applyPerQueryInsights (cards : List Card) (aiResults : List QueryResult) : List Card :=
  aiResults.enum.foldl patchStep cards

/-- The AI continuation acting on the painted report (main.js lines
249–321).  On a raise of the AI fetch chain the catch clears the
placeholder's text (`innerText = ""`).  On a decoded response with a
truthy `error` the placeholder is replaced with the inline failure
message.  Otherwise the placeholder is hidden, the AI summary blocks are
injected, and the cards are patched. -/
def applyAI (rep : StaticReport) (outcome : FetchOutcome AIResponse) : StaticReport :=
  match outcome with
  | .raise => { rep with placeholderContent := "" }
  | .ok aiData =>
    if aiData.hasError then
      { rep with placeholderContent := "AI Analysis failed: " ++ aiData.error.getD "" }
    else
      { rep with
          placeholderVisible := false
          aiBlocks := buildAIBlocks aiData.summary
          cards := applyPerQueryInsights rep.cards aiData.results }

/-- The AI continuation lifted to the page state: it rewrites only the
report painted into `validationOutput`; when no report is on screen the
container lookups find nothing to patch and the state is unchanged. -/
def aiContinuation (st : PageState) (outcome : FetchOutcome AIResponse) : PageState :=
  match st.output with
  | .staticReport rep => { st with output := .staticReport (applyAI rep outcome) }
  | _ => st

/-- Observable effects of one run of the submit handler, in the order
the code performs them. -/
inductive Event
  | clearWarning
  | showDuplicateWarning
  | disarmDownload
  | showValidating
  | issueStaticRequest
  | renderErrorMessage
  | commitFingerprint (fp : String)
  | renderStaticResults
  | armDownload (url : String)
  | issueAIRequest
  | handlerEnd
deriving DecidableEq, Repr

/-- Event trace of one run of the submit handler's own async task,
transcribed from the statement order of main.js lines 129–326.  The AI
request is issued but not awaited: the trace ends right after
`issueAIRequest`, and the patching effects live in `applyAI`, which runs
as a detached continuation. -/
def submitTrace (st : PageState) (snap : FormSnapshot)
    (outcome : FetchOutcome VResponse) : List Event :=
  let fp := computeFingerprint snap
  [.clearWarning] ++
  (if st.lastFingerprint == some fp then
    [.showDuplicateWarning, .handlerEnd]
  else
    [.disarmDownload, .showValidating, .issueStaticRequest] ++
    match outcome with
    | .raise => [.renderErrorMessage, .handlerEnd]
    | .ok data =>
      if data.hasError then [.renderErrorMessage, .handlerEnd]
      else
        [.commitFingerprint fp, .renderStaticResults] ++
        (if truthy data.pdf_url then [.armDownload (data.pdf_url.getD "")] else []) ++
        [.issueAIRequest, .handlerEnd])

/-- The AI-tagged messages the patch loop draws from `aiResults[i]`:
the validations of result `i` that start with the AI glyph, or none when
there is no result at index `i`. -/
def aiTaggedMessages (aiResults : List QueryResult) (i : Nat) : List String :=
  match aiResults[i]? with
  | some item => item.validations.filter (fun v => jsStartsWith v aiGlyph)
  | none => []

/-- C6: severity classification is purely a function of the leading
sentinel glyph, checked in priority order failure, warning, AI, else
success: any string beginning with the failure glyph classifies as
error whatever follows (in particular even if a warning glyph occurs
later in the text), and a string beginning with none of the special
glyphs classifies as success. -/
theorem classification_by_leading_glyph (v : String) :
    (jsStartsWith v failureGlyph = true → classify v = Severity.error) ∧
    (jsStartsWith v failureGlyph = false → jsStartsWith v warningGlyph = true →
      classify v = Severity.warning) ∧
    (jsStartsWith v failureGlyph = false → jsStartsWith v warningGlyph = false →
      jsStartsWith v aiGlyph = true → classify v = Severity.aiMsg) ∧
    (jsStartsWith v failureGlyph = false → jsStartsWith v warningGlyph = false →
      jsStartsWith v aiGlyph = false → classify v = Severity.success) := by
  refine ⟨fun h1 => ?_, fun h1 h2 => ?_, fun h1 h2 h3 => ?_, fun h1 h2 h3 => ?_⟩ <;>
    simp [classify, h1]
  · simp [h2]
  · simp [h2, h3]
  · simp [h2, h3]

/-- Witness for C6 at concrete strings: a failure-glyph string that also
contains a warning glyph later classifies as error, and a plain string
classifies as success. -/
theorem classification_witness :
    classify "❌ bad ⚠️ later" = Severity.error ∧
    classify "all good" = Severity.success :=
  ⟨(classification_by_leading_glyph "❌ bad ⚠️ later").1 (by decide),
   (classification_by_leading_glyph "all good").2.2.2 (by decide) (by decide) (by decide)⟩

/-- C10: when the duplicate guard blocks a submit attempt, the handler
returns early having changed only the duplicate-warning element; it
issues no request, and the rendered results, the download control and
its binding, and `lastFingerprint` are exactly as before. -/
theorem blocked_submit_frame (st : PageState) (snap : FormSnapshot)
    (o : FetchOutcome VResponse)
    (h : st.lastFingerprint = some (computeFingerprint snap)) :
    (submitStatic st snap o).blocked = true ∧
    (submitStatic st snap o).staticRequested = false ∧
    (submitStatic st snap o).aiRequested = false ∧
    (submitStatic st snap o).state =
      { st with warningVisible := true, warningText := duplicateWarningText } := by
  simp [submitStatic, h]

/-- Witness for C10: a concrete blocked second submission changes only
the warning element. -/
theorem blocked_submit_frame_witness :
    (submitStatic
        { initialPageState with lastFingerprint := some "A|a@x.com|T|CR1|q.sql|10|1000" }
        ⟨"A", "a@x.com", "T", "CR1", some ⟨"q.sql", 10, 1000⟩⟩
        FetchOutcome.raise).state =
      { initialPageState with
          lastFingerprint := some "A|a@x.com|T|CR1|q.sql|10|1000"
          warningVisible := true
          warningText := duplicateWarningText } :=
  (blocked_submit_frame
      { initialPageState with lastFingerprint := some "A|a@x.com|T|CR1|q.sql|10|1000" }
      ⟨"A", "a@x.com", "T", "CR1", some ⟨"q.sql", 10, 1000⟩⟩
      FetchOutcome.raise (by decide)).2.2.2

/-- C2: on a transport failure of the static phase (the call raises or
the body is malformed, both landing in the outer catch) the generic
error is shown, `lastFingerprint` is unchanged, and nothing is
committed: a retry with the identical fingerprint is not blocked. -/
theorem static_transport_failure_preserves_state (st : PageState)
    (snap : FormSnapshot)
    (h : st.lastFingerprint ≠ some (computeFingerprint snap)) :
    (submitStatic st snap FetchOutcome.raise).blocked = false ∧
    (submitStatic st snap FetchOutcome.raise).state.output =
      OutputView.errorMessage "❌ An error occurred." ∧
    (submitStatic st snap FetchOutcome.raise).state.lastFingerprint = st.lastFingerprint ∧
    (submitStatic st snap FetchOutcome.raise).state.downloadBinding = none ∧
    ∀ o, (submitStatic (submitStatic st snap FetchOutcome.raise).state snap o).blocked = false := by
  refine ⟨?_, ?_, ?_, ?_, ?_⟩ <;> simp [submitStatic, h]
  intro o
  cases o with
  | raise => rfl
  | ok data => by_cases hd : data.hasError = true <;> simp [hd]

/-- Witness for C2 at a concrete fresh page and snapshot. -/
theorem static_transport_failure_witness :
    (submitStatic initialPageState ⟨"A", "a@x.com", "T", "CR1", none⟩
        FetchOutcome.raise).state.lastFingerprint = none ∧
    (submitStatic
        (submitStatic initialPageState ⟨"A", "a@x.com", "T", "CR1", none⟩
          FetchOutcome.raise).state
        ⟨"A", "a@x.com", "T", "CR1", none⟩ FetchOutcome.raise).blocked = false := by
  have h := static_transport_failure_preserves_state initialPageState
    ⟨"A", "a@x.com", "T", "CR1", none⟩ (by decide)
  exact ⟨h.2.2.1, h.2.2.2.2 FetchOutcome.raise⟩

/-- C3: after a successful static validation commits the fingerprint, a
second submit with the same fingerprint is blocked — the warning is
shown and no network request is issued — whereas after a failed first
submission (network raise or decoded error response) the same
fingerprint is not blocked. -/
theorem duplicate_guard_blocks_only_after_success (st : PageState)
    (snap : FormSnapshot) (data : VResponse)
    (h : st.lastFingerprint ≠ some (computeFingerprint snap)) :
    (data.hasError = false →
      ∀ o₂, (submitStatic (submitStatic st snap (FetchOutcome.ok data)).state snap o₂).blocked = true ∧
        (submitStatic (submitStatic st snap (FetchOutcome.ok data)).state snap o₂).staticRequested = false ∧
        (submitStatic (submitStatic st snap (FetchOutcome.ok data)).state snap o₂).aiRequested = false ∧
        (submitStatic (submitStatic st snap (FetchOutcome.ok data)).state snap o₂).state.warningVisible = true ∧
        (submitStatic (submitStatic st snap (FetchOutcome.ok data)).state snap o₂).state.warningText = duplicateWarningText) ∧
    (∀ o₂, (submitStatic (submitStatic st snap FetchOutcome.raise).state snap o₂).blocked = false) ∧
    (data.hasError = true →
      ∀ o₂, (submitStatic (submitStatic st snap (FetchOutcome.ok data)).state snap o₂).blocked = false) := by
  refine ⟨fun hd o₂ => ?_, fun o₂ => ?_, fun hd o₂ => ?_⟩
  · by_cases hp : truthy data.pdf_url = true <;>
      simp [submitStatic, h, hd, hp]
  · cases o₂ with
    | raise => simp [submitStatic, h]
    | ok d₂ =>
      by_cases hd₂ : d₂.hasError = true <;> simp [submitStatic, h, hd₂]
  · cases o₂ with
    | raise => simp [submitStatic, h, hd]
    | ok d₂ =>
      by_cases hd₂ : d₂.hasError = true <;> simp [submitStatic, h, hd, hd₂]

/-- Witness for C3 at concrete inputs: fresh page, one successful
response (duplicate then blocked with no request) against a raise and a
decoded-error first attempt (duplicate not blocked). -/
theorem duplicate_guard_witness :
    (submitStatic
        (submitStatic initialPageState ⟨"A", "a@x.com", "T", "CR1", none⟩
          (FetchOutcome.ok ⟨none, ⟨1, 1, 0⟩, [⟨"SELECT 1", ["ok"]⟩], none⟩)).state
        ⟨"A", "a@x.com", "T", "CR1", none⟩ FetchOutcome.raise).blocked = true ∧
    (submitStatic
        (submitStatic initialPageState ⟨"A", "a@x.com", "T", "CR1", none⟩
          FetchOutcome.raise).state
        ⟨"A", "a@x.com", "T", "CR1", none⟩ FetchOutcome.raise).blocked = false ∧
    (submitStatic
        (submitStatic initialPageState ⟨"A", "a@x.com", "T", "CR1", none⟩
          (FetchOutcome.ok ⟨some "empty file", ⟨0, 0, 0⟩, [], none⟩)).state
        ⟨"A", "a@x.com", "T", "CR1", none⟩ FetchOutcome.raise).blocked = false := by
  have h1 := duplicate_guard_blocks_only_after_success initialPageState
    ⟨"A", "a@x.com", "T", "CR1", none⟩ ⟨none, ⟨1, 1, 0⟩, [⟨"SELECT 1", ["ok"]⟩], none⟩
    (by decide)
  have h2 := duplicate_guard_blocks_only_after_success initialPageState
    ⟨"A", "a@x.com", "T", "CR1", none⟩ ⟨some "empty file", ⟨0, 0, 0⟩, [], none⟩
    (by decide)
  exact ⟨(h1.1 (by decide) FetchOutcome.raise).1, h1.2.1 FetchOutcome.raise,
    h2.2.2 (by decide) FetchOutcome.raise⟩

/-- Counterexample to C4 as stated: when the AI network call raises
after a successful static phase, the placeholder is not replaced with a
failure notice — the catch handler sets its text to the empty string, so
the still-visible container shows nothing at all. -/
theorem ai_raise_clears_placeholder_counterexample :
    (applyAI
        ⟨true, aiThinkingText, [], ⟨1, 0, 1⟩,
          [⟨0, "SELECT 1", [⟨Severity.error, "❌ syntax error"⟩]⟩]⟩
        FetchOutcome.raise).placeholderContent = "" ∧
    (applyAI
        ⟨true, aiThinkingText, [], ⟨1, 0, 1⟩,
          [⟨0, "SELECT 1", [⟨Severity.error, "❌ syntax error"⟩]⟩]⟩
        FetchOutcome.raise).placeholderVisible = true := by
  exact ⟨rfl, rfl⟩

/-- C4 as amended: when the AI phase fails after a successful static
phase, the placeholder's text is cleared to the empty string if the AI
network call raises, or replaced with the inline message
`AI Analysis failed: …` if the decoded AI response carries a truthy
top-level error; in both cases the static summary and every card on
screen are left untouched and `lastFingerprint` is not reverted. -/
theorem ai_failure_leaves_static_results (rep : StaticReport)
    (ai : AIResponse) (st : PageState) (h : ai.hasError = true) :
    applyAI rep FetchOutcome.raise = { rep with placeholderContent := "" } ∧
    applyAI rep (FetchOutcome.ok ai) =
      { rep with placeholderContent := "AI Analysis failed: " ++ ai.error.getD "" } ∧
    (applyAI rep FetchOutcome.raise).summary = rep.summary ∧
    (applyAI rep FetchOutcome.raise).cards = rep.cards ∧
    (applyAI rep (FetchOutcome.ok ai)).summary = rep.summary ∧
    (applyAI rep (FetchOutcome.ok ai)).cards = rep.cards ∧
    ∀ o, (aiContinuation st o).lastFingerprint = st.lastFingerprint := by
  refine ⟨rfl, by simp [applyAI, h], rfl, rfl, by simp [applyAI, h], by simp [applyAI, h], ?_⟩
  intro o
  cases hst : st.output <;> simp [aiContinuation, hst]

/-- Witness for C4 (amended) at a concrete report, AI error response and
page state. -/
theorem ai_failure_witness :
    applyAI ⟨true, aiThinkingText, [], ⟨1, 0, 1⟩, []⟩
        (FetchOutcome.ok ⟨some "model timeout", ⟨none, none⟩, []⟩) =
      ⟨true, "AI Analysis failed: model timeout", [], ⟨1, 0, 1⟩, []⟩ ∧
    (applyAI ⟨true, aiThinkingText, [], ⟨1, 0, 1⟩, []⟩ FetchOutcome.raise).cards = [] := by
  have h := ai_failure_leaves_static_results ⟨true, aiThinkingText, [], ⟨1, 0, 1⟩, []⟩
    ⟨some "model timeout", ⟨none, none⟩, []⟩ initialPageState (by decide)
  exact ⟨h.2.1, h.2.2.2.1⟩

/-- C5: on a successful static response the handler's effects occur in
the order commit `lastFingerprint`, render the static results, arm the
download gate when `pdf_url` is truthy, then issue the AI request; the
static render always completes before the AI request is issued, and the
handler's own async task ends right after issuing it — the AI call is
not awaited (its effects live in the detached continuation `applyAI`,
which contributes nothing to this trace). -/
theorem static_success_effect_order (st : PageState) (snap : FormSnapshot)
    (data : VResponse)
    (h1 : st.lastFingerprint ≠ some (computeFingerprint snap))
    (h2 : data.hasError = false) :
    submitTrace st snap (FetchOutcome.ok data) =
      [Event.clearWarning, Event.disarmDownload, Event.showValidating,
       Event.issueStaticRequest,
       Event.commitFingerprint (computeFingerprint snap), Event.renderStaticResults] ++
      (if truthy data.pdf_url = true then [Event.armDownload (data.pdf_url.getD "")] else []) ++
      [Event.issueAIRequest, Event.handlerEnd] ∧
    ∃ pre, submitTrace st snap (FetchOutcome.ok data) =
      pre ++ [Event.issueAIRequest, Event.handlerEnd] := by
  constructor
  · simp [submitTrace, h1, h2]
  · refine ⟨[Event.clearWarning, Event.disarmDownload, Event.showValidating,
      Event.issueStaticRequest,
      Event.commitFingerprint (computeFingerprint snap), Event.renderStaticResults] ++
      (if truthy data.pdf_url = true then [Event.armDownload (data.pdf_url.getD "")] else []), ?_⟩
    by_cases hp : truthy data.pdf_url = true <;> simp [submitTrace, h1, h2, hp]

/-- Witness for C5: the full effect trace of the end-to-end scenario of
§8 of the spec, with the download-gate arming between the static render
and the AI request. -/
theorem static_success_effect_order_witness :
    submitTrace initialPageState ⟨"A", "a@x.com", "T", "CR1", some ⟨"q.sql", 10, 1000⟩⟩
        (FetchOutcome.ok ⟨none, ⟨1, 0, 1⟩, [⟨"SELECT 1", ["❌ syntax error"]⟩], some "/r/1.pdf"⟩) =
      [Event.clearWarning, Event.disarmDownload, Event.showValidating,
       Event.issueStaticRequest,
       Event.commitFingerprint "A|a@x.com|T|CR1|q.sql|10|1000", Event.renderStaticResults,
       Event.armDownload "/r/1.pdf", Event.issueAIRequest, Event.handlerEnd] := by
  have h := static_success_effect_order initialPageState
    ⟨"A", "a@x.com", "T", "CR1", some ⟨"q.sql", 10, 1000⟩⟩
    ⟨none, ⟨1, 0, 1⟩, [⟨"SELECT 1", ["❌ syntax error"]⟩], some "/r/1.pdf"⟩
    (by decide) (by decide)
  rw [h.1]
  decide

/-- C9: the download control is disarmed right after the guard passes on
every submission that proceeds (second trace event, before any request
is made), and it ends up re-armed exactly when the static response is a
success carrying a truthy `pdf_url`; on a decoded error response or a
transport failure it stays disarmed. -/
theorem download_gate_invariant (st : PageState) (snap : FormSnapshot)
    (outcome : FetchOutcome VResponse)
    (h : st.lastFingerprint ≠ some (computeFingerprint snap)) :
    (∃ rest, submitTrace st snap outcome =
      Event.clearWarning :: Event.disarmDownload :: rest) ∧
    (submitStatic st snap outcome).state.downloadBinding =
      (match outcome with
       | FetchOutcome.raise => none
       | FetchOutcome.ok data =>
         if data.hasError = true then none
         else if truthy data.pdf_url = true then data.pdf_url else none) := by
  constructor
  · refine ⟨Event.showValidating :: Event.issueStaticRequest ::
      (match outcome with
       | FetchOutcome.raise => [Event.renderErrorMessage, Event.handlerEnd]
       | FetchOutcome.ok data =>
         if data.hasError = true then [Event.renderErrorMessage, Event.handlerEnd]
         else [Event.commitFingerprint (computeFingerprint snap), Event.renderStaticResults] ++
           (if truthy data.pdf_url = true then [Event.armDownload (data.pdf_url.getD "")] else []) ++
           [Event.issueAIRequest, Event.handlerEnd]), ?_⟩
    cases outcome <;> simp [submitTrace, h]
  · cases outcome with
    | raise => simp [submitStatic, h]
    | ok data =>
      by_cases hd : data.hasError = true
      · simp [submitStatic, h, hd]
      · by_cases hp : truthy data.pdf_url = true <;> simp [submitStatic, h, hd, hp]

/-- Witness for C9: a domain-error response leaves the gate disarmed and
a successful response with a `pdf_url` arms it, on a fresh page. -/
theorem download_gate_witness :
    (submitStatic initialPageState ⟨"A", "a@x.com", "T", "CR1", none⟩
        (FetchOutcome.ok ⟨some "empty file", ⟨0, 0, 0⟩, [], some "/r/1.pdf"⟩)).state.downloadBinding
      = none ∧
    (submitStatic initialPageState ⟨"A", "a@x.com", "T", "CR1", none⟩
        (FetchOutcome.ok ⟨none, ⟨1, 0, 1⟩, [], some "/r/1.pdf"⟩)).state.downloadBinding
      = some "/r/1.pdf" := by
  have h1 := download_gate_invariant initialPageState ⟨"A", "a@x.com", "T", "CR1", none⟩
    (FetchOutcome.ok ⟨some "empty file", ⟨0, 0, 0⟩, [], some "/r/1.pdf"⟩) (by decide)
  have h2 := download_gate_invariant initialPageState ⟨"A", "a@x.com", "T", "CR1", none⟩
    (FetchOutcome.ok ⟨none, ⟨1, 0, 1⟩, [], some "/r/1.pdf"⟩) (by decide)
  refine ⟨?_, ?_⟩
  · rw [h1.2]; decide
  · rw [h2.2]; decide

theorem patchCard_nil (c : Card) : patchCard c [] = c := by
  simp [patchCard]

theorem patchStep_length (cs : List Card) (p : Nat × QueryResult) :
    (patchStep cs p).length = cs.length := by
  simp only [patchStep]
  split
  · split <;> simp
  · rfl

theorem foldl_patchStep_length (rs : List (Nat × QueryResult)) (cs : List Card) :
    (rs.foldl patchStep cs).length = cs.length := by
  induction rs generalizing cs with
  | nil => rfl
  | cons p rs ih => rw [List.foldl_cons, ih, patchStep_length]

theorem patchStep_getElem_ne (cs : List Card) (p : Nat × QueryResult) (i : Nat)
    (h : p.1 ≠ i) : (patchStep cs p)[i]? = cs[i]? := by
  simp only [patchStep]
  split
  · split
    · exact List.getElem?_set_ne h
    · rfl
  · rfl

theorem foldl_patchStep_getElem_lt (rs : List QueryResult) (n : Nat) (cs : List Card)
    (i : Nat) (h : i < n) :
    ((List.enumFrom n rs).foldl patchStep cs)[i]? = cs[i]? := by
  induction rs generalizing n cs with
  | nil => rfl
  | cons r rs ih =>
    rw [List.enumFrom_cons, List.foldl_cons, ih (n + 1) _ (by omega),
        patchStep_getElem_ne _ _ _ (by omega)]

theorem foldl_patchStep_getElem (rs : List QueryResult) (n : Nat) (cs : List Card)
    (i : Nat) (h : n ≤ i) :
    ((List.enumFrom n rs).foldl patchStep cs)[i]? =
      (cs[i]?).map (fun c =>
        patchCard c (match rs[i - n]? with
          | some item => item.validations.filter (fun v => jsStartsWith v aiGlyph)
          | none => [])) := by
  induction rs generalizing n cs with
  | nil =>
    cases hcs : cs[i]? <;> simp [List.enumFrom, patchCard_nil, hcs]
  | cons r rs ih =>
    rw [List.enumFrom_cons, List.foldl_cons]
    rcases Nat.lt_or_ge i (n + 1) with hlt | hge
    · have hin : i = n := Nat.le_antisymm (Nat.lt_succ_iff.mp hlt) h
      subst hin
      rw [foldl_patchStep_getElem_lt rs (i + 1) _ i (Nat.lt_succ_self i)]
      simp only [Nat.sub_self, List.getElem?_cons_zero, patchStep]
      split
      · split
        next c heq =>
          have hn : i < cs.length := by
            by_contra hb
            rw [List.getElem?_eq_none (by omega)] at heq
            exact Option.noConfusion heq
          rw [heq, List.getElem?_set_eq_of_lt _ hn]
          rfl
        next heq => rw [heq]; rfl
      · next hlen =>
        have hnil : r.validations.filter (fun v => jsStartsWith v aiGlyph) = [] :=
          List.eq_nil_of_length_eq_zero (Nat.eq_zero_of_not_pos hlen)
        rw [hnil]
        cases hcs : cs[i]? <;> simp [patchCard_nil, hcs]
    · rw [ih (n + 1) _ hge, patchStep_getElem_ne _ _ _ (by omega)]
      have hsub : i - n = (i - (n + 1)) + 1 := by omega
      rw [hsub, List.getElem?_cons_succ]

/-- C7: patching is strictly additive and positional: the patched card
list has the same length as the rendered one, and the card at index `i`
keeps its index, its query and its original items in their original
order, followed by the AI-tagged messages of `aiResults[i]` in append
order; an index with no existing card is silently skipped (the list
never grows), and an index with no AI result is untouched. -/
theorem patch_additivity (cards : List Card) (aiResults : List QueryResult) :
    (applyPerQueryInsights cards aiResults).length = cards.length ∧
    ∀ i, (applyPerQueryInsights cards aiResults)[i]? =
      (cards[i]?).map (fun (c : Card) =>
        { c with items := (c.items ++ (aiTaggedMessages aiResults i).map
              (fun m => ({ cls := Severity.aiMsg, text := m } : ListItem))) }) := by
  constructor
  · exact foldl_patchStep_length _ _
  · intro i
    have hfold := foldl_patchStep_getElem aiResults 0 cards i (Nat.zero_le i)
    rw [Nat.sub_zero] at hfold
    rw [applyPerQueryInsights, List.enum_eq_enumFrom, hfold]
    cases hcs : cards[i]? <;> simp [patchCard, aiTaggedMessages]

/-- C8 at its failing input: the AI patch loop re-appends an AI-tagged
message that the static phase already rendered in the same card — the
source's own comment announces a "check if already exists", but no such
check is performed, so the card ends with the message twice. -/
theorem ai_patch_readds_existing_message :
    applyPerQueryInsights
        [⟨0, "SELECT 1", [⟨Severity.aiMsg, "🧠 add an index"⟩]⟩]
        [⟨"SELECT 1", ["🧠 add an index"]⟩] =
      [⟨0, "SELECT 1", [⟨Severity.aiMsg, "🧠 add an index"⟩,
        ⟨Severity.aiMsg, "🧠 add an index"⟩]⟩] := by
  decide

/-- Cancellation at the first separator: two separator-free character
prefixes followed by a pipe determine each other and their tails. -/
theorem pipe_split {l₁ l₂ r₁ r₂ : List Char}
    (h₁ : '|' ∉ l₁) (h₂ : '|' ∉ l₂)
    (h : l₁ ++ '|' :: r₁ = l₂ ++ '|' :: r₂) : l₁ = l₂ ∧ r₁ = r₂ := by
  induction l₁ generalizing l₂ with
  | nil =>
    cases l₂ with
    | nil => exact ⟨rfl, by simpa using h⟩
    | cons b bs =>
      rw [List.nil_append, List.cons_append] at h
      obtain ⟨hb, -⟩ := List.cons.inj h
      exact absurd (hb ▸ List.mem_cons_self b bs) h₂
  | cons a as ih =>
    cases l₂ with
    | nil =>
      rw [List.cons_append, List.nil_append] at h
      obtain ⟨ha, -⟩ := List.cons.inj h
      exact absurd (ha ▸ List.mem_cons_self a as) h₁
    | cons b bs =>
      rw [List.cons_append, List.cons_append] at h
      obtain ⟨hab, htail⟩ := List.cons.inj h
      have h₁' : '|' ∉ as := fun hm => h₁ (List.mem_cons_of_mem a hm)
      have h₂' : '|' ∉ bs := fun hm => h₂ (List.mem_cons_of_mem b hm)
      obtain ⟨he, hr⟩ := ih h₁' h₂' htail
      exact ⟨by rw [hab, he], hr⟩

/-- Character-level shape of the seven-way join: each component's
characters separated by single pipes. -/
theorem intercalate7_data (a b c d e f g : String) :
    (String.intercalate "|" [a, b, c, d, e, f, g]).data =
      a.data ++ '|' :: (b.data ++ '|' :: (c.data ++ '|' :: (d.data ++ '|' ::
        (e.data ++ '|' :: (f.data ++ '|' :: g.data))))) := by
  have hp : ("|" : String).data = ['|'] := rfl
  simp [String.intercalate, String.intercalate.go, String.data_append, hp]

/-- Counterexample to C1 as stated: the join is not injective on
arbitrary components.  Two snapshots whose name / email / team fields
differ — the first hiding a `|` inside `name`, the second inside `team`
— produce the identical fingerprint string, so fingerprint equality
does not imply that the seven components are pairwise equal. -/
theorem fingerprint_collision :
    computeFingerprint ⟨"a|b", "", "", "", none⟩ =
      computeFingerprint ⟨"a", "b", "|", "", none⟩ ∧
    fingerprintComponents ⟨"a|b", "", "", "", none⟩ ≠
      fingerprintComponents ⟨"a", "b", "|", "", none⟩ := by
  decide

/-- C1 as amended: equal components always give equal fingerprints, and
when no component contains the separator character `|`,
`computeFingerprint` yields equal strings if and only if all seven
components are pairwise equal. -/
theorem computeFingerprint_eq_iff (s t : FormSnapshot)
    (hs : ∀ c ∈ fingerprintComponents s, '|' ∉ c.data)
    (ht : ∀ c ∈ fingerprintComponents t, '|' ∉ c.data) :
    computeFingerprint s = computeFingerprint t ↔
      fingerprintComponents s = fingerprintComponents t := by
  constructor
  · intro h
    have hs1 : '|' ∉ s.name.data := hs _ (by simp [fingerprintComponents])
    have hs2 : '|' ∉ s.email.data := hs _ (by simp [fingerprintComponents])
    have hs3 : '|' ∉ s.team.data := hs _ (by simp [fingerprintComponents])
    have hs4 : '|' ∉ s.cr_number.data := hs _ (by simp [fingerprintComponents])
    have hs5 : '|' ∉ (match s.file with | some f => f.name | none => "").data :=
      hs _ (by simp [fingerprintComponents])
    have hs6 : '|' ∉ (match s.file with | some f => toString f.size | none => "").data :=
      hs _ (by simp [fingerprintComponents])
    have hs7 : '|' ∉ (match s.file with | some f => toString f.lastModified | none => "").data :=
      hs _ (by simp [fingerprintComponents])
    have ht1 : '|' ∉ t.name.data := ht _ (by simp [fingerprintComponents])
    have ht2 : '|' ∉ t.email.data := ht _ (by simp [fingerprintComponents])
    have ht3 : '|' ∉ t.team.data := ht _ (by simp [fingerprintComponents])
    have ht4 : '|' ∉ t.cr_number.data := ht _ (by simp [fingerprintComponents])
    have ht5 : '|' ∉ (match t.file with | some f => f.name | none => "").data :=
      ht _ (by simp [fingerprintComponents])
    have ht6 : '|' ∉ (match t.file with | some f => toString f.size | none => "").data :=
      ht _ (by simp [fingerprintComponents])
    have ht7 : '|' ∉ (match t.file with | some f => toString f.lastModified | none => "").data :=
      ht _ (by simp [fingerprintComponents])
    have hd := congrArg String.data h
    simp only [computeFingerprint, fingerprintComponents] at hd
    rw [intercalate7_data, intercalate7_data] at hd
    obtain ⟨e1, hd⟩ := pipe_split hs1 ht1 hd
    obtain ⟨e2, hd⟩ := pipe_split hs2 ht2 hd
    obtain ⟨e3, hd⟩ := pipe_split hs3 ht3 hd
    obtain ⟨e4, hd⟩ := pipe_split hs4 ht4 hd
    obtain ⟨e5, hd⟩ := pipe_split hs5 ht5 hd
    obtain ⟨e6, e7⟩ := pipe_split hs6 ht6 hd
    simp only [fingerprintComponents]
    rw [String.ext e1, String.ext e2, String.ext e3, String.ext e4,
        String.ext e5, String.ext e6, String.ext e7]
  · intro h
    rw [computeFingerprint, computeFingerprint, h]

/-- Witness for C1 (amended) at two concrete separator-free snapshots
differing only in the name field: their fingerprints differ. -/
theorem computeFingerprint_eq_iff_witness :
    computeFingerprint ⟨"A", "a@x.com", "T", "CR1", some ⟨"q.sql", 10, 1000⟩⟩ ≠
      computeFingerprint ⟨"B", "a@x.com", "T", "CR1", some ⟨"q.sql", 10, 1000⟩⟩ := by
  have h := computeFingerprint_eq_iff
    ⟨"A", "a@x.com", "T", "CR1", some ⟨"q.sql", 10, 1000⟩⟩
    ⟨"B", "a@x.com", "T", "CR1", some ⟨"q.sql", 10, 1000⟩⟩
    (by decide) (by decide)
  exact fun he => absurd (h.mp he) (by decide)

end SqlValidator
